import Mathlib

/-!
Verification of the trade-recommendation extraction pipeline in
`packages/plugin-sui/src/evaluators/tradeEvaluator.ts`.

The TypeScript source is shallowly embedded: JavaScript values that may be
absent (`undefined`/`null`) become `Option`, JavaScript truthiness of a
string-valued field ("present and non-empty") becomes `truthyStr`, the
in-place mutation performed by `Array.prototype.reverse` becomes explicit
state passing, and the two generative-backend calls plus the memory-store
read are recorded in an explicit call trace so that "never invoked" claims
can be stated.
-/

namespace TradeEvaluator

/-- JavaScript truthiness of an optional string field: the field is truthy
iff it is present and non-empty. -/
def truthyStr : Option String → Bool
  | none => false
  | some s => s != ""

/-- JavaScript truthiness of an optional boolean field: absent (`undefined`)
is falsy. -/
def truthyBool : Option Bool → Bool
  | none => false
  | some b => b

/-- JavaScript `String.prototype.trim`: strips leading and trailing
whitespace. -/
def trimJS (s : String) : String :=
  ⟨((s.data.dropWhile Char.isWhitespace).reverse.dropWhile
      Char.isWhitespace).reverse⟩

/-- A loosely-typed candidate record as produced by `generateObjectArray`
(the structured-extraction backend call). No field is guaranteed present:
absent fields are `none`. Mirrors the JSON schema in `recommendationTemplate`
(`tradeEvaluator.ts` lines 61-74). -/
structure Candidate where
  recommender : Option String
  ticker : Option String
  contractAddress : Option String
  type : Option String
  conviction : Option String
  alreadyKnown : Option Bool
deriving DecidableEq, Repr

/-- The per-candidate filter predicate of `handler`
(`tradeEvaluator.ts` lines 139-147):
`!rec.alreadyKnown && (rec.ticker || rec.contractAddress) && rec.recommender
&& rec.conviction && rec.recommender.trim() !== ""`.
`Option.getD ""` models the fact that `rec.recommender.trim()` is only
reached when `rec.recommender` is truthy (short-circuit `&&`). -/
def keepCandidate (rec : Candidate) : Bool :=
  !truthyBool rec.alreadyKnown &&
  (truthyStr rec.ticker || truthyStr rec.contractAddress) &&
  truthyStr rec.recommender &&
  truthyStr rec.conviction &&
  (trimJS (rec.recommender.getD "") != "")

/-- `recommendations.filter(...)` from `handler`
(`tradeEvaluator.ts` lines 139-147). -/
def filteredRecommendations (recommendations : List Candidate) : List Candidate :=
  recommendations.filter keepCandidate

/-- A stored recommendation memory. Only `(rec.content as Content)?.content`
is read by the formatter; the optional string models that this field may be
absent. -/
structure RecMemory where
  content : Option String
deriving DecidableEq, Repr

/-- JavaScript template-literal stringification of
`(rec.content as Content)?.content`: an absent field prints as
`"undefined"`. -/
def recText (rec : RecMemory) : String :=
  match rec.content with
  | some s => s
  | none => "undefined"

/-- `formatRecommendations` (`tradeEvaluator.ts` lines 30-36) with the
in-place mutation of `Array.prototype.reverse` made explicit: the first
component is the returned string, the second is the state of the caller's
array after the call (JavaScript `reverse()` reverses the array in place,
so the caller's array ends up reversed). -/
def formatRecommendationsRun (recommendations : List RecMemory) :
    String × List RecMemory :=
  let reversed := recommendations.reverse
  let messageStrings := reversed.map (fun rec => recText rec)
  let finalMessageStrings := String.intercalate "\n" messageStrings
  (finalMessageStrings, reversed)

/-- The string returned by `formatRecommendations`. -/
def formatRecommendations (recommendations : List RecMemory) : String :=
  (formatRecommendationsRun recommendations).1

/-- One backend/store interaction performed by `handler`, recorded in order:
the boolean gate (`generateTrueOrFalse`), the memory-store read
(`recommendationsManager.getMemories({ roomId, count })`), and the
structured extraction (`generateObjectArray`, carrying the
`recentRecommendations` narrative embedded in its prompt). -/
inductive BackendCall where
  | generateTrueOrFalse
  | getMemories (roomId : String) (count : Nat)
  | generateObjectArray (recentRecommendations : String)
deriving DecidableEq, Repr

/-- The environment of one `handler` invocation: the configuration setting
`POSTGRES_URL` (`none` when unset), the `roomId` from the composed state,
and the responses of the external collaborators (gate answer, stored
memories returned by the store, and the `generateObjectArray` result, which
is `null`/`none` when the backend output was unparseable). -/
structure Env where
  postgresUrl : Option String
  roomId : String
  shouldProcess : Bool
  storeMemories : List RecMemory
  objectArray : Option (List Candidate)
deriving Repr

/-- `handler` (`tradeEvaluator.ts` lines 76-150), returning the result list
together with the trace of backend/store calls it performed, in order. -/
def handler (env : Env) : List Candidate × List BackendCall :=
  if truthyStr env.postgresUrl then
    ([], [])
  else
    let calls := [BackendCall.generateTrueOrFalse]
    if !env.shouldProcess then
      ([], calls)
    else
      let calls := calls ++ [BackendCall.getMemories env.roomId 20]
      let recentRecommendations := env.storeMemories
      let calls := calls ++
        [BackendCall.generateObjectArray
          (formatRecommendations recentRecommendations)]
      match env.objectArray with
      | none => ([], calls)
      | some recommendations =>
        (filteredRecommendations recommendations, calls)

/-- A message as read by `validate`: `content.text`, `userId`, `agentId`. -/
structure Message where
  text : String
  userId : String
  agentId : String
deriving DecidableEq, Repr

/-- `validate` of `tradeEvaluator` (`tradeEvaluator.ts` lines 160-170):
false when `message.content.text.length < 5`, otherwise
`message.userId !== message.agentId`. -/
def validate (message : Message) : Bool :=
  if message.text.length < 5 then
    false
  else
    message.userId != message.agentId

/-! ### Helper lemmas -/

theorem truthyStr_iff (x : Option String) :
    truthyStr x = true ↔ ∃ s, x = some s ∧ s ≠ "" := by
  cases x with
  | none => simp [truthyStr]
  | some s => simp [truthyStr, bne_iff_ne]

theorem truthyBool_false_iff (x : Option Bool) :
    truthyBool x = false ↔ x ≠ some true := by
  cases x with
  | none => simp [truthyBool]
  | some b => cases b <;> simp [truthyBool]

theorem ne_empty_of_trimJS (s : String) (h : trimJS s ≠ "") : s ≠ "" := by
  intro he
  subst he
  exact h rfl

theorem recommender_ok_iff (x : Option String) :
    (truthyStr x = true ∧ (trimJS (x.getD "") != "") = true) ↔
      ∃ s, x = some s ∧ trimJS s ≠ "" := by
  cases x with
  | none => simp [truthyStr]
  | some s =>
    simp only [truthyStr, Option.getD_some, bne_iff_ne, ne_eq,
      Option.some.injEq]
    constructor
    · rintro ⟨-, h⟩
      exact ⟨s, rfl, h⟩
    · rintro ⟨s', hs, h⟩
      subst hs
      exact ⟨ne_empty_of_trimJS s h, h⟩

/-- Characterization of the filter predicate: a candidate is kept iff its
`alreadyKnown` field is not `true`, at least one of `ticker` and
`contractAddress` is present and non-empty, `recommender` is present with a
non-empty trim, and `conviction` is present and non-empty. -/
theorem keepCandidate_eq_true_iff (rec : Candidate) :
    keepCandidate rec = true ↔
      rec.alreadyKnown ≠ some true ∧
      (truthyStr rec.ticker = true ∨ truthyStr rec.contractAddress = true) ∧
      (∃ s, rec.recommender = some s ∧ trimJS s ≠ "") ∧
      (∃ s, rec.conviction = some s ∧ s ≠ "") := by
  unfold keepCandidate
  simp only [Bool.and_eq_true, Bool.or_eq_true, Bool.not_eq_true',
    and_assoc]
  rw [truthyBool_false_iff]
  constructor
  · rintro ⟨hak, hid, hr, hcv, htrim⟩
    exact ⟨hak, hid, (recommender_ok_iff _).1 ⟨hr, htrim⟩,
      (truthyStr_iff _).1 hcv⟩
  · rintro ⟨hak, hid, hr, hcv⟩
    have h2 := (recommender_ok_iff _).2 hr
    exact ⟨hak, hid, h2.1, (truthyStr_iff _).2 hcv, h2.2⟩

/-! ### Claims -/

/-- The Validator predicate exactly as the specification words it, for
comparison with `keepCandidate`: clauses 1-3 coincide with the code, but
clause 4 demands only that `conviction` be *present*, whereas the code's
truthiness check also rejects a present-but-empty `conviction`. -/
def specKeepCandidate (rec : Candidate) : Bool :=
  !truthyBool rec.alreadyKnown &&
  (truthyStr rec.ticker || truthyStr rec.contractAddress) &&
  (rec.recommender.isSome && (trimJS (rec.recommender.getD "") != "")) &&
  rec.conviction.isSome

/-- C1 counterexample: a candidate whose `conviction` is present but equal
to the empty string satisfies all four predicates as the claim states them
(`alreadyKnown` false, ticker present and non-empty, recommender non-empty
after trimming, conviction present), yet the filter drops it, so "retained
if and only if all four predicates hold" fails. -/
theorem c1_conviction_counterexample :
    specKeepCandidate
        { recommender := some "alice", ticker := some "SUIA",
          contractAddress := none, type := some "buy",
          conviction := some "", alreadyKnown := some false } = true ∧
      filteredRecommendations
        [{ recommender := some "alice", ticker := some "SUIA",
           contractAddress := none, type := some "buy",
           conviction := some "", alreadyKnown := some false }] = [] := by
  decide

/-- C1 (amended): the filter retains a candidate iff it occurs in the input
and (1) its `alreadyKnown` field is not `true`, (2) at least one of
`ticker`/`contractAddress` is present and non-empty, (3) `recommender` is
present and non-empty after trimming surrounding whitespace, and (4)
`conviction` is present *and non-empty*. In particular a whitespace-only
recommender fails (3) and a candidate with neither identifier fails (2). -/
theorem c1_filter_characterization (cands : List Candidate)
    (rec : Candidate) :
    rec ∈ filteredRecommendations cands ↔
      rec ∈ cands ∧
      rec.alreadyKnown ≠ some true ∧
      ((∃ s, rec.ticker = some s ∧ s ≠ "") ∨
        (∃ s, rec.contractAddress = some s ∧ s ≠ "")) ∧
      (∃ s, rec.recommender = some s ∧ trimJS s ≠ "") ∧
      (∃ s, rec.conviction = some s ∧ s ≠ "") := by
  rw [filteredRecommendations, List.mem_filter, keepCandidate_eq_true_iff,
    truthyStr_iff, truthyStr_iff]

/-- C5: the formatter reverses the input sequence, maps each element to its
textual content, and joins with a newline separator; on `[A, B, C]` (store
order, newest-first) it returns content of C, newline, content of B,
newline, content of A, and on the empty sequence it returns the empty
string. -/
theorem c5_format_reverses_and_joins (recs : List RecMemory)
    (a b c : String) :
    formatRecommendations recs =
        String.intercalate "\n" (recs.reverse.map (fun rec => recText rec)) ∧
      formatRecommendations [⟨some a⟩, ⟨some b⟩, ⟨some c⟩] =
        c ++ "\n" ++ b ++ "\n" ++ a ∧
      formatRecommendations [] = "" :=
  ⟨rfl, rfl, rfl⟩

/-- C6 refutation: `formatRecommendations` is not pure. JavaScript
`Array.prototype.reverse` reverses the caller's array in place, so after
one call on the two-element array `[A, B]` the caller observes `[B, A]`,
and a second call on the same array returns `"A\nB"` instead of the first
call's `"B\nA"`. -/
theorem c6_format_mutates_input :
    (formatRecommendationsRun [⟨some "A"⟩, ⟨some "B"⟩]).2 ≠
        [⟨some "A"⟩, ⟨some "B"⟩] ∧
      (formatRecommendationsRun
          (formatRecommendationsRun [⟨some "A"⟩, ⟨some "B"⟩]).2).1 ≠
        (formatRecommendationsRun [⟨some "A"⟩, ⟨some "B"⟩]).1 := by
  decide

/-- C7: `validate` returns false when the message text is shorter than 5
characters, returns false when the message's `userId` equals its `agentId`,
and returns true otherwise. -/
theorem c7_validate_spec (message : Message) :
    (message.text.length < 5 → validate message = false) ∧
      (message.userId = message.agentId → validate message = false) ∧
      (5 ≤ message.text.length → message.userId ≠ message.agentId →
        validate message = true) := by
  unfold validate
  refine ⟨fun h => by simp [h], fun h => ?_, fun h5 hne => ?_⟩
  · simp [h]
  · rw [if_neg (by omega)]
    simp [bne_iff_ne, hne]

/-- C7 witness at a concrete short message. -/
theorem c7_validate_witness :
    validate { text := "hi", userId := "u1", agentId := "a1" } = false :=
  (c7_validate_spec { text := "hi", userId := "u1", agentId := "a1" }).1
    (by decide)

/-- C8: the filter's output is a subsequence of its input in the same
order, and no deduplication beyond the `alreadyKnown` check is performed:
two well-formed candidates for the same ticker and contract address from
different recommenders are both retained, in input order. -/
theorem c8_order_preserved_no_dedup (cands : List Candidate)
    (r1 r2 t ca cv : String) (h1 : trimJS r1 ≠ "") (h2 : trimJS r2 ≠ "")
    (ht : t ≠ "") (hcv : cv ≠ "") :
    List.Sublist (filteredRecommendations cands) cands ∧
      filteredRecommendations
        [{ recommender := some r1, ticker := some t,
           contractAddress := some ca, type := some "buy",
           conviction := some cv, alreadyKnown := some false },
         { recommender := some r2, ticker := some t,
           contractAddress := some ca, type := some "dont_buy",
           conviction := some cv, alreadyKnown := some false }] =
        [{ recommender := some r1, ticker := some t,
           contractAddress := some ca, type := some "buy",
           conviction := some cv, alreadyKnown := some false },
         { recommender := some r2, ticker := some t,
           contractAddress := some ca, type := some "dont_buy",
           conviction := some cv, alreadyKnown := some false }] := by
  refine ⟨List.filter_sublist cands, ?_⟩
  have e1 : (r1 != "") = true := bne_iff_ne.mpr (ne_empty_of_trimJS r1 h1)
  have e2 : (r2 != "") = true := bne_iff_ne.mpr (ne_empty_of_trimJS r2 h2)
  have e3 : (t != "") = true := bne_iff_ne.mpr ht
  have e4 : (cv != "") = true := bne_iff_ne.mpr hcv
  have e5 : (trimJS r1 != "") = true := bne_iff_ne.mpr h1
  have e6 : (trimJS r2 != "") = true := bne_iff_ne.mpr h2
  simp [filteredRecommendations, List.filter, keepCandidate, truthyStr,
    truthyBool, e1, e2, e3, e4, e5, e6]

/-- C8 witness at a concrete pair of candidates sharing ticker and contract
address. -/
theorem c8_witness :
    List.Sublist (filteredRecommendations []) ([] : List Candidate) ∧
      filteredRecommendations
        [{ recommender := some "alice", ticker := some "SAMOYED",
           contractAddress := some "5TQwH", type := some "buy",
           conviction := some "high", alreadyKnown := some false },
         { recommender := some "bob", ticker := some "SAMOYED",
           contractAddress := some "5TQwH", type := some "dont_buy",
           conviction := some "high", alreadyKnown := some false }] =
        [{ recommender := some "alice", ticker := some "SAMOYED",
           contractAddress := some "5TQwH", type := some "buy",
           conviction := some "high", alreadyKnown := some false },
         { recommender := some "bob", ticker := some "SAMOYED",
           contractAddress := some "5TQwH", type := some "dont_buy",
           conviction := some "high", alreadyKnown := some false }] :=
  c8_order_preserved_no_dedup [] "alice" "bob" "SAMOYED" "5TQwH" "high"
    (by decide) (by decide) (by decide) (by decide)

/-- C10: the filter never inspects the `type` field — the predicate is
invariant under replacing `type` by anything, and a candidate meeting the
four retention predicates is kept even when its `type` is absent or not one
of the four enumerated recommendation types. -/
theorem c10_type_not_inspected (c : Candidate) (t : Option String)
    (hak : c.alreadyKnown ≠ some true)
    (hid : truthyStr c.ticker = true ∨ truthyStr c.contractAddress = true)
    (hr : ∃ s, c.recommender = some s ∧ trimJS s ≠ "")
    (hcv : ∃ s, c.conviction = some s ∧ s ≠ "") :
    (∀ c' : Candidate, ∀ t1 t2 : Option String,
        keepCandidate { c' with type := t1 } =
          keepCandidate { c' with type := t2 }) ∧
      filteredRecommendations [{ c with type := t }] =
        [{ c with type := t }] := by
  refine ⟨fun c' t1 t2 => rfl, ?_⟩
  have hkeep : keepCandidate { c with type := t } = true :=
    (keepCandidate_eq_true_iff _).2 ⟨hak, hid, hr, hcv⟩
  simp [filteredRecommendations, List.filter, hkeep]

/-- C10 witness: a candidate with an absent `type` meeting the four
predicates is retained. -/
theorem c10_witness :
    (∀ c' : Candidate, ∀ t1 t2 : Option String,
        keepCandidate { c' with type := t1 } =
          keepCandidate { c' with type := t2 }) ∧
      filteredRecommendations
        [{ recommender := some "alice", ticker := some "SUIA",
           contractAddress := none, type := none,
           conviction := some "high", alreadyKnown := none }] =
        [{ recommender := some "alice", ticker := some "SUIA",
           contractAddress := none, type := none,
           conviction := some "high", alreadyKnown := none }] :=
  c10_type_not_inspected
    { recommender := some "alice", ticker := some "SUIA",
      contractAddress := none, type := none,
      conviction := some "high", alreadyKnown := none }
    none (by decide) (Or.inl (by decide))
    ⟨"alice", rfl, by decide⟩ ⟨"high", rfl, by decide⟩

/-- C2: when the `POSTGRES_URL` skip does not apply, a false gate answer
makes `handler` return the empty list without ever calling
`generateObjectArray` (the structured-extraction backend call), while a
true gate answer leads to an extraction call. -/
theorem c2_gate_short_circuit (env : Env)
    (hpg : truthyStr env.postgresUrl = false) :
    (env.shouldProcess = false →
        (handler env).1 = [] ∧
          ∀ s, BackendCall.generateObjectArray s ∉ (handler env).2) ∧
      (env.shouldProcess = true →
        ∃ s, BackendCall.generateObjectArray s ∈ (handler env).2) := by
  constructor
  · intro hsp
    simp [handler, hpg, hsp]
  · intro hsp
    refine ⟨formatRecommendations env.storeMemories, ?_⟩
    cases hoa : env.objectArray <;> simp [handler, hpg, hsp, hoa]

/-- C2 witness: concrete environment with the gate answering false. -/
theorem c2_witness :
    (handler { postgresUrl := none, roomId := "room1",
               shouldProcess := false, storeMemories := [],
               objectArray := none }).1 = [] ∧
      ∀ s, BackendCall.generateObjectArray s ∉
        (handler { postgresUrl := none, roomId := "room1",
                   shouldProcess := false, storeMemories := [],
                   objectArray := none }).2 :=
  (c2_gate_short_circuit
      { postgresUrl := none, roomId := "room1", shouldProcess := false,
        storeMemories := [], objectArray := none } (by decide)).1 rfl

/-- C3: when `POSTGRES_URL` is set (truthy), `handler` returns the empty
list and performs no backend or store call at all — in particular neither
the gate nor the extractor is invoked. -/
theorem c3_postgres_skip (env : Env)
    (hpg : truthyStr env.postgresUrl = true) :
    (handler env).1 = [] ∧ (handler env).2 = [] := by
  simp [handler, hpg]

/-- C3 witness: concrete environment with `POSTGRES_URL` set. -/
theorem c3_witness :
    (handler { postgresUrl := some "postgres://db", roomId := "room1",
               shouldProcess := true, storeMemories := [],
               objectArray := some [] }).1 = [] ∧
      (handler { postgresUrl := some "postgres://db", roomId := "room1",
                 shouldProcess := true, storeMemories := [],
                 objectArray := some [] }).2 = [] :=
  c3_postgres_skip
    { postgresUrl := some "postgres://db", roomId := "room1",
      shouldProcess := true, storeMemories := [], objectArray := some [] }
    (by decide)

/-- C4: for an invocation that reaches extraction (no postgres skip, gate
true), an unparseable extraction result (`null`, modelled as `none`) or an
empty one makes `handler` return the empty list rather than fail. -/
theorem c4_unparseable_extraction (env : Env)
    (hpg : truthyStr env.postgresUrl = false)
    (hsp : env.shouldProcess = true)
    (hoa : env.objectArray = none ∨ env.objectArray = some []) :
    (handler env).1 = [] := by
  rcases hoa with h | h <;>
    simp [handler, hpg, hsp, h, filteredRecommendations]

/-- C4 witness: concrete environment whose extraction result is `null`. -/
theorem c4_witness :
    (handler { postgresUrl := none, roomId := "room1",
               shouldProcess := true, storeMemories := [],
               objectArray := none }).1 = [] :=
  c4_unparseable_extraction
    { postgresUrl := none, roomId := "room1", shouldProcess := true,
      storeMemories := [], objectArray := none }
    (by decide) rfl (Or.inl rfl)

/-- C9: for an invocation that passes the gate, `handler` issues exactly
one memory-store request, for the message's room with count 20 — every
`getMemories` call in the trace carries that room and a count of at most
20. -/
theorem c9_bounded_memory_request (env : Env)
    (hpg : truthyStr env.postgresUrl = false)
    (hsp : env.shouldProcess = true) :
    BackendCall.getMemories env.roomId 20 ∈ (handler env).2 ∧
      ∀ r n, BackendCall.getMemories r n ∈ (handler env).2 →
        r = env.roomId ∧ n ≤ 20 := by
  cases hoa : env.objectArray <;> simp [handler, hpg, hsp, hoa]

/-- C9 witness: concrete environment that reaches extraction. -/
theorem c9_witness :
    BackendCall.getMemories "room1" 20 ∈
        (handler { postgresUrl := none, roomId := "room1",
                   shouldProcess := true, storeMemories := [],
                   objectArray := some [] }).2 ∧
      ∀ r n, BackendCall.getMemories r n ∈
          (handler { postgresUrl := none, roomId := "room1",
                     shouldProcess := true, storeMemories := [],
                     objectArray := some [] }).2 →
        r = "room1" ∧ n ≤ 20 :=
  c9_bounded_memory_request
    { postgresUrl := none, roomId := "room1", shouldProcess := true,
      storeMemories := [], objectArray := some [] }
    (by decide) rfl

end TradeEvaluator
